import Mathlib

/-!
D-Mid middleware: shallow embedding and verification.

This file embeds the core logic of the D-Mid code-scanning middleware
(`main.py` of the token-based service variant, plus the pieces of the
authentication layer that the sources reference) and proves the claims
of the specification about it.

Modelling conventions:
* JSON values are the inductive `Json`; a Python `dict` payload is a
  `List (String × Json)` association list (insertion order preserved,
  as in Python).
* The downstream AI service is an oracle (`Downstream`): either a
  transport-level failure (`httpx.RequestError`), or an HTTP response
  with a status code and a body whose JSON-parse outcome is given
  (`Except String Json`, mirroring `response.json()` which either
  returns the parsed value or raises a decode error).
* The `/scan` handler `scan_code` is embedded as a pure function from
  the authenticated user, the validated request and the downstream
  oracle to an execution record: the list of HTTP POSTs it performed,
  the outcome visible to the caller, and the log records it emitted.
  Log records are kept structured, so that exactly the data embedded
  into each log f-string is visible in the model.
-/

/-- JSON values, as produced by parsing a request or response body. -/
inductive Json : Type
  | null : Json
  | bool : Bool → Json
  | num : Int → Json
  | str : String → Json
  | arr : List Json → Json
  | obj : List (String × Json) → Json

/-- Replace the value stored at key `k` (Python `d[k] = v` on an existing
key: the binding is updated in place, other bindings are untouched). -/
def setField (fields : List (String × Json)) (k : String) (v : Json) :
    List (String × Json) :=
  fields.map (fun p => if p.1 = k then (k, v) else p)

/-- Modelled from the spec: the Principal resolved by the Auth Gate (the
`User` model lives in the absent `auth` module): a unique `username` and
an `active` flag. Only `username` is consumed by `main.py`. -/
structure User : Type where
  username : String
  active : Bool := true

/-- The pydantic model `ScanRequest` (main.py): `code : str`, `language : str`,
`options : Optional[Dict] = None`. -/
structure ScanRequest : Type where
  code : String
  language : String
  options : Option (List (String × Json)) := none

/-- The dict `request_data.model_dump()`: the pydantic model rendered as a dict —
all three declared fields, `options` as `None` when absent. -/
def ScanRequest.model_dump (r : ScanRequest) : List (String × Json) :=
  [("code", Json.str r.code),
   ("language", Json.str r.language),
   ("options", match r.options with
               | none => Json.null
               | some d => Json.obj d)]

/-- The redacted log record of `scan_code`:
`log_data = request_data.model_dump()`, then if `"code" in log_data` and
`len(str(log_data["code"])) > 100`, the `code` entry is replaced by its
first 100 characters followed by the `"... (truncated)"` marker. -/
def build_log_data (r : ScanRequest) : List (String × Json) :=
  let log_data := r.model_dump
  match log_data.lookup "code" with
  | some (Json.str c) =>
      if c.length > 100 then
        setField log_data "code" (Json.str (c.take 100 ++ "... (truncated)"))
      else
        log_data
  | _ => log_data

/-- One structured log record of the handler; each constructor carries
exactly the dynamic data interpolated into the corresponding
`logger.info` / `logger.error` f-string in `scan_code`. -/
inductive LogEntry : Type
  | scanRequest : String → List (String × Json) → LogEntry
  | scanCompleted : String → LogEntry
  | aiApiFailed : String → String → LogEntry
  | aiApiError : String → Nat → LogEntry

/-- The downstream AI service, as an oracle for a single POST:
either the POST raises `httpx.RequestError` (carrying a message), or an
HTTP response arrives with a status code and a body whose parse as JSON
either succeeds or raises a decode error. -/
inductive Downstream : Type
  | transportError : String → Downstream
  | response : Nat → Except String Json → Downstream

/-- The predicate `httpx.Response.is_success` behind
`response.raise_for_status()`: a 2xx status. -/
def is_success (s : Nat) : Bool := 200 ≤ s && s < 300

/-- The single HTTP POST issued by the handler: target URL, JSON body,
timeout in seconds (`timeout=30.0`). -/
structure ForwardedRequest : Type where
  url : String
  body : List (String × Json)
  timeoutSeconds : Nat

/-- The `ScanResponse` model: `status`, `result`, `user_id`. -/
structure ScanResponse : Type where
  status : String
  result : Json
  user_id : String

/-- What the caller of `/scan` observes from the handler:
a normal return (HTTP status and `ScanResponse` body), a raised
`HTTPException` (status code and `detail`), or an exception that escapes
the handler uncaught. -/
inductive ScanOutcome : Type
  | ok : Nat → ScanResponse → ScanOutcome
  | httpError : Nat → String → ScanOutcome
  | uncaught : String → ScanOutcome

/-- Returns `true` iff the outcome is one of the caller-facing
responses of the handler (a normal return or a raised `HTTPException`)
rather than an exception escaping the handler untranslated. -/
def ScanOutcome.isTranslated : ScanOutcome → Bool
  | ScanOutcome.ok _ _ => true
  | ScanOutcome.httpError _ _ => true
  | ScanOutcome.uncaught _ => false

/-- A full execution of the handler body: the POSTs made, the outcome,
and the log records, in order. -/
structure ScanExec : Type where
  posts : List ForwardedRequest
  outcome : ScanOutcome
  logs : List LogEntry

/-- The `/scan` handler body `scan_code` (main.py), after the Auth Gate
has produced `current_user` and pydantic has validated `request_data`:

1. build the redacted `log_data` and log the request;
2. POST `request_data.model_dump()` to `PUBLIC_AI_API_URL` with
   `timeout=30.0` (a single attempt — the downstream oracle decides its
   fate);
3. `response.raise_for_status()`: a non-2xx status raises
   `httpx.HTTPStatusError`, caught and mapped to
   `HTTPException(e.response.status_code, "AI service error")`;
4. `response.json()`: a parse failure raises a decode error that no
   `except` clause catches;
5. on success, return
   `{"status": "success", "result": result, "user_id": username}`
   (HTTP 200);
6. `httpx.RequestError` is caught and mapped to
   `HTTPException(500, "AI service unavailable")`. -/
def scan_code (url : String) (current_user : User) (request_data : ScanRequest)
    (downstream : Downstream) : ScanExec :=
  let requestLog := LogEntry.scanRequest current_user.username
    (build_log_data request_data)
  let post : ForwardedRequest :=
    { url := url, body := request_data.model_dump, timeoutSeconds := 30 }
  match downstream with
  | Downstream.transportError e =>
      { posts := [post],
        outcome := ScanOutcome.httpError 500 "AI service unavailable",
        logs := [requestLog, LogEntry.aiApiFailed current_user.username e] }
  | Downstream.response s body =>
      if is_success s then
        match body with
        | Except.ok result =>
            { posts := [post],
              outcome := ScanOutcome.ok 200
                { status := "success", result := result,
                  user_id := current_user.username },
              logs := [requestLog,
                       LogEntry.scanCompleted current_user.username] }
        | Except.error e =>
            { posts := [post],
              outcome := ScanOutcome.uncaught e,
              logs := [requestLog] }
      else
        { posts := [post],
          outcome := ScanOutcome.httpError s "AI service error",
          logs := [requestLog,
                   LogEntry.aiApiError current_user.username s] }

/-- Returns `true` iff the dict binds `k` to a JSON string — the shape pydantic
accepts for a required `str` field from a JSON body (numbers, booleans,
null, arrays and objects are all rejected for `str` in pydantic v2). -/
def isStrField (fields : List (String × Json)) (k : String) : Bool :=
  match fields.lookup k with
  | some (Json.str _) => true
  | _ => false

/-- Pydantic validation of a JSON request body against `ScanRequest`:
`code` and `language` are required `str` fields; `options` is an
optional `Dict` (absent or `null` become `None`; any other non-object
value is rejected). A non-object body is rejected outright. -/
def ScanRequest.validate (body : Json) : Except String ScanRequest :=
  match body with
  | Json.obj fields =>
      match fields.lookup "code" with
      | some (Json.str c) =>
          match fields.lookup "language" with
          | some (Json.str l) =>
              match fields.lookup "options" with
              | none => Except.ok { code := c, language := l, options := none }
              | some Json.null =>
                  Except.ok { code := c, language := l, options := none }
              | some (Json.obj d) =>
                  Except.ok { code := c, language := l, options := some d }
              | some _ => Except.error "options: value is not a valid dict"
          | some _ => Except.error "language: value is not a valid string"
          | none => Except.error "language: field required"
      | some _ => Except.error "code: value is not a valid string"
      | none => Except.error "code: field required"
  | _ => Except.error "body: value is not a valid dict"

/-- What the caller of the `/scan` route observes once the framework is
included: either the handler ran (its `ScanExec`), or the body failed
`ScanRequest` validation and the framework rejected the request with a
validation error before the handler body ever ran. -/
inductive EndpointExec : Type
  | handled : ScanExec → EndpointExec
  | validationError : String → EndpointExec

/-- The POSTs performed during an endpoint execution: none at all when
validation rejected the body. -/
def EndpointExec.posts : EndpointExec → List ForwardedRequest
  | EndpointExec.handled ex => ex.posts
  | EndpointExec.validationError _ => []

/-- The `/scan` route of the token variant, for an authenticated
principal: the framework validates the JSON body against `ScanRequest`
and only on success runs the handler body `scan_code`. -/
def scan_endpoint (url : String) (current_user : User) (body : Json)
    (downstream : Downstream) : EndpointExec :=
  match ScanRequest.validate body with
  | Except.error e => EndpointExec.validationError e
  | Except.ok request_data =>
      EndpointExec.handled (scan_code url current_user request_data downstream)

/-- Modelled from the spec: the static-key Auth Gate of the header-key
service variant, whose implementation file is absent from the sources
(only its tests remain, `test_scan_without_api_key` and
`test_scan_with_invalid_api_key` in `test_main.py`). A missing
`X-API-Key` header is rejected 401 (`MissingCredential`); a header that
matches no entry of the key→username mapping is rejected 401 with a
distinct detail (`InvalidCredential`); a matching key resolves to its
username. The detail strings are the ones the tests of the repository
assert. -/
def verify_api_key (keyMap : List (String × String)) (header : Option String) :
    Except (Nat × String) String :=
  match header with
  | none => Except.error (401, "API key required")
  | some k =>
      match keyMap.lookup k with
      | none => Except.error (401, "Invalid API key")
      | some username => Except.ok username

/-- A stored user record of the credential store: username, hashed
password, and the active flag. Modelled from the spec: the store itself
lives in the absent `auth` module. -/
structure UserRec : Type where
  username : String
  hashed_password : String
  active : Bool := true

/-- Modelled from the spec: `authenticate_user` of the password variant
(absent `auth` module): look up the stored hashed password for
`username`; return the principal only if hash verification succeeds.
Unknown usernames and wrong passwords are indistinguishable failures
(both yield `None`). `verify` is the password-hash verifier
(`verify password hashed`). -/
def authenticate_user (verify : String → String → Bool)
    (db : List (String × UserRec)) (username password : String) :
    Option UserRec :=
  match db.lookup username with
  | none => none
  | some user =>
      if verify password user.hashed_password then some user else none

/-- What the caller of `POST /token` observes: a 200 with
`{"access_token": ..., "token_type": ...}`, or a raised `HTTPException`
(status and detail). -/
inductive TokenOutcome : Type
  | ok : String → String → TokenOutcome
  | httpError : Nat → String → TokenOutcome

/-- The `/token` handler `login_for_access_token` (main.py):
`authenticate_user` failing raises
`HTTPException(401, "用户名或密码错误")`; on success a signed access
token for `sub = user.username` is created and
`{"access_token": token, "token_type": "bearer"}` is returned (HTTP
200). `create_access_token` (absent `auth` module) is modelled from the
spec as the token issuer for a given subject. -/
def login_for_access_token (verify : String → String → Bool)
    (create_access_token : String → String)
    (db : List (String × UserRec)) (username password : String) :
    TokenOutcome :=
  match authenticate_user verify db username password with
  | none => TokenOutcome.httpError 401 "用户名或密码错误"
  | some user =>
      TokenOutcome.ok (create_access_token user.username) "bearer"

/-! Helper lemmas shared by the claim theorems. -/

/-- Taking the first `n` characters of a string yields a string of
length `min n s.length`. -/
theorem string_length_take (s : String) (n : Nat) :
    (s.take n).length = min n s.length := by
  rw [String.take_eq]
  exact List.length_take ..

/-- Unfolding of `build_log_data`: the `code` entry of `model_dump` is
replaced exactly when the code exceeds 100 characters. -/
theorem build_log_data_eq (r : ScanRequest) :
    build_log_data r =
      if r.code.length > 100 then
        setField r.model_dump "code"
          (Json.str (r.code.take 100 ++ "... (truncated)"))
      else r.model_dump := rfl

/-- A JSON object body whose `code` or `language` entry is missing or
not a string fails `ScanRequest` validation. -/
theorem validate_obj_error (fields : List (String × Json))
    (h : isStrField fields "code" = false ∨
         isStrField fields "language" = false) :
    ∃ e, ScanRequest.validate (Json.obj fields) = Except.error e := by
  rcases hc : fields.lookup "code" with _ | jc
  · exact ⟨"code: field required", by simp [ScanRequest.validate, hc]⟩
  · cases jc with
    | str c =>
        have hl : isStrField fields "language" = false := by
          rcases h with h | h
          · rw [isStrField, hc] at h
            exact absurd h (by simp)
          · exact h
        rcases hlan : fields.lookup "language" with _ | jl
        · exact ⟨"language: field required",
            by simp [ScanRequest.validate, hc, hlan]⟩
        · cases jl with
          | str l =>
              rw [isStrField, hlan] at hl
              exact absurd hl (by simp)
          | null => exact ⟨"language: value is not a valid string",
              by simp [ScanRequest.validate, hc, hlan]⟩
          | bool b => exact ⟨"language: value is not a valid string",
              by simp [ScanRequest.validate, hc, hlan]⟩
          | num n => exact ⟨"language: value is not a valid string",
              by simp [ScanRequest.validate, hc, hlan]⟩
          | arr a => exact ⟨"language: value is not a valid string",
              by simp [ScanRequest.validate, hc, hlan]⟩
          | obj o => exact ⟨"language: value is not a valid string",
              by simp [ScanRequest.validate, hc, hlan]⟩
    | null => exact ⟨"code: value is not a valid string",
        by simp [ScanRequest.validate, hc]⟩
    | bool b => exact ⟨"code: value is not a valid string",
        by simp [ScanRequest.validate, hc]⟩
    | num n => exact ⟨"code: value is not a valid string",
        by simp [ScanRequest.validate, hc]⟩
    | arr a => exact ⟨"code: value is not a valid string",
        by simp [ScanRequest.validate, hc]⟩
    | obj o => exact ⟨"code: value is not a valid string",
        by simp [ScanRequest.validate, hc]⟩

/-- C1: for every `/scan` request from an authenticated principal, if
the downstream POST returns a 2xx status and its body parses as the
JSON value `j`, the endpoint responds 200 with
`{status: "success", result: j, user_id: username}` — the downstream
body is passed through unchanged as `result` and `user_id` is the
username of the authenticated principal. -/
theorem scan_success_returns_result (url : String) (u : User)
    (r : ScanRequest) (s : Nat) (j : Json) (hs : is_success s = true) :
    (scan_code url u r (Downstream.response s (Except.ok j))).outcome =
      ScanOutcome.ok 200
        { status := "success", result := j, user_id := u.username } := by
  simp [scan_code, hs]

/-- Witness for C1: a downstream 200 with body `{"result": "x"}` yields
a 200 response carrying that body and the username of the principal. -/
theorem scan_success_returns_result_witness :
    is_success 200 = true ∧
      (scan_code "https://api.example.com/scan" { username := "test_user" }
          { code := "test code", language := "python" }
          (Downstream.response 200
            (Except.ok (Json.obj [("result", Json.str "x")])))).outcome =
        ScanOutcome.ok 200
          { status := "success",
            result := Json.obj [("result", Json.str "x")],
            user_id := "test_user" } :=
  ⟨rfl, scan_success_returns_result _ _ _ _ _ rfl⟩

/-- C2: for every `/scan` request from an authenticated principal, a
downstream response with a non-2xx status `s` makes the endpoint raise
`HTTPException` with that same status `s` and detail exactly
`"AI service error"`; the downstream status is logged (the
`aiApiError` record), and the whole execution — response and logs —
is independent of the downstream body, so the body is never exposed. -/
theorem scan_downstream_error_propagates_status (url : String) (u : User)
    (r : ScanRequest) (s : Nat) (body : Except String Json)
    (hs : is_success s = false) :
    (scan_code url u r (Downstream.response s body)).outcome =
        ScanOutcome.httpError s "AI service error" ∧
      (scan_code url u r (Downstream.response s body)).logs =
        [LogEntry.scanRequest u.username (build_log_data r),
         LogEntry.aiApiError u.username s] ∧
      ∀ body2, scan_code url u r (Downstream.response s body2) =
        scan_code url u r (Downstream.response s body) := by
  refine ⟨?_, ?_, fun body2 => ?_⟩ <;> simp [scan_code, hs]

/-- Witness for C2: a downstream 503 yields exactly a 503 with detail
`"AI service error"`. -/
theorem scan_downstream_error_propagates_status_witness :
    is_success 503 = false ∧
      ((scan_code "https://api.example.com/scan" { username := "test_user" }
          { code := "test code", language := "python" }
          (Downstream.response 503 (Except.ok Json.null))).outcome =
          ScanOutcome.httpError 503 "AI service error" ∧
        (scan_code "https://api.example.com/scan" { username := "test_user" }
          { code := "test code", language := "python" }
          (Downstream.response 503 (Except.ok Json.null))).logs =
          [LogEntry.scanRequest "test_user"
            (build_log_data { code := "test code", language := "python" }),
           LogEntry.aiApiError "test_user" 503] ∧
        ∀ body2, scan_code "https://api.example.com/scan"
            { username := "test_user" }
            { code := "test code", language := "python" }
            (Downstream.response 503 body2) =
          scan_code "https://api.example.com/scan" { username := "test_user" }
            { code := "test code", language := "python" }
            (Downstream.response 503 (Except.ok Json.null))) :=
  ⟨rfl, scan_downstream_error_propagates_status _ _ _ _ _ rfl⟩

/-- C3: for every `/scan` request from an authenticated principal, a
transport-level failure of the downstream POST (connection refused, DNS
failure, timeout — an `httpx.RequestError` carrying message `e`) makes
the endpoint raise exactly 500 with detail `"AI service unavailable"`;
the original error message `e` appears only in the `aiApiFailed` log
record, never in the caller-facing outcome, which is a constant
independent of `e`. -/
theorem scan_transport_error_translated (url : String) (u : User)
    (r : ScanRequest) (e : String) :
    scan_code url u r (Downstream.transportError e) =
      { posts := [{ url := url, body := r.model_dump, timeoutSeconds := 30 }],
        outcome := ScanOutcome.httpError 500 "AI service unavailable",
        logs := [LogEntry.scanRequest u.username (build_log_data r),
                 LogEntry.aiApiFailed u.username e] } := rfl

/-- C4: for every `/scan` request whose `code` field exceeds 100
characters, the log record built before forwarding binds `code` to
exactly the first 100 characters followed by the truncation marker
`"... (truncated)"`, a string of fixed length 115 — so the full payload
is never written to the log, for all payload sizes. -/
theorem scan_log_truncates_large_code (r : ScanRequest)
    (h : r.code.length > 100) :
    (build_log_data r).lookup "code" =
        some (Json.str (r.code.take 100 ++ "... (truncated)")) ∧
      (r.code.take 100 ++ "... (truncated)").length = 115 := by
  constructor
  · rw [build_log_data_eq, if_pos h]
    rfl
  · rw [String.length_append, string_length_take]
    have hm : ("... (truncated)" : String).length = 15 := rfl
    omega

/-- Witness for C4: a 101-character `code` is logged as its first 100
characters plus the marker, 115 characters in total. -/
theorem scan_log_truncates_large_code_witness :
    (String.mk (List.replicate 101 'x')).length > 100 ∧
      ((build_log_data (ScanRequest.mk (String.mk (List.replicate 101 'x'))
            "python" none)).lookup "code" =
          some (Json.str ((String.mk (List.replicate 101 'x')).take 100 ++
            "... (truncated)")) ∧
        ((String.mk (List.replicate 101 'x')).take 100 ++
          "... (truncated)").length = 115) :=
  ⟨by decide, scan_log_truncates_large_code _ (by decide)⟩

/-- C5 counterexample: a downstream 2xx response whose body fails to
parse as JSON is NOT translated at the proxy boundary — the decode
error escapes the handler uncaught (neither `except httpx.RequestError`
nor `except httpx.HTTPStatusError` matches it), so the outcome is not
one of the caller-facing responses at this concrete input. -/
theorem scan_json_decode_error_escapes_uncaught :
    ((scan_code "https://api.example.com/scan" { username := "test_user" }
        { code := "test code", language := "python" }
        (Downstream.response 200
          (Except.error
            "Expecting value: line 1 column 1 (char 0)"))).outcome).isTranslated
        = false ∧
      (scan_code "https://api.example.com/scan" { username := "test_user" }
        { code := "test code", language := "python" }
        (Downstream.response 200
          (Except.error "Expecting value: line 1 column 1 (char 0)"))).outcome =
        ScanOutcome.uncaught "Expecting value: line 1 column 1 (char 0)" :=
  ⟨rfl, rfl⟩

/-- C5 amended: an exception escapes the `/scan` handler untranslated
exactly when the downstream returned a 2xx response whose body failed
to parse as JSON; every other downstream failure — transport error or
non-2xx status — is caught at the proxy boundary and translated into a
caller-facing `HTTPException`. -/
theorem scan_uncaught_iff_unparseable_2xx_body (url : String) (u : User)
    (r : ScanRequest) (d : Downstream) (e : String) :
    (scan_code url u r d).outcome = ScanOutcome.uncaught e ↔
      ∃ s, d = Downstream.response s (Except.error e) ∧
        is_success s = true := by
  cases d with
  | transportError m => simp [scan_code]
  | response s body =>
      by_cases hs : is_success s
      · cases body with
        | ok j => simp [scan_code, hs]
        | error m =>
            simp [scan_code, hs]
            constructor
            · intro h
              exact ⟨s, ⟨rfl, h⟩, hs⟩
            · rintro ⟨s1, ⟨-, hme⟩, -⟩
              exact hme
      · rw [Bool.not_eq_true] at hs
        cases body with
        | ok j => simp [scan_code, hs]
        | error m => simp [scan_code, hs]

/-- C6: for every `/scan` request from an authenticated principal, the
handler performs exactly one HTTP POST (no retry), targeting the
configured downstream URL with a fixed 30-second timeout, and its JSON
body is exactly `request_data.model_dump()` — which contains `options`
when present, and determines the inbound request uniquely (the dump is
injective), so the forwarded body equals the inbound scan payload. -/
theorem scan_forwards_exact_payload_once (url : String) (u : User)
    (r : ScanRequest) (d : Downstream) :
    (scan_code url u r d).posts =
        [{ url := url, body := r.model_dump, timeoutSeconds := 30 }] ∧
      (∀ o, r.options = some o →
        r.model_dump.lookup "options" = some (Json.obj o)) ∧
      ∀ r2 : ScanRequest, r.model_dump = ScanRequest.model_dump r2 → r = r2 := by
  refine ⟨?_, fun o ho => ?_, fun r2 h => ?_⟩
  · cases d with
    | transportError e => rfl
    | response s body =>
        by_cases hs : is_success s
        · cases body with
          | ok j => simp [scan_code, hs]
          | error e => simp [scan_code, hs]
        · rw [Bool.not_eq_true] at hs
          simp [scan_code, hs]
  · simp [ScanRequest.model_dump, ho]
    rfl
  · cases r with
    | mk c l o =>
      cases r2 with
      | mk c2 l2 o2 =>
        simp [ScanRequest.model_dump] at h
        obtain ⟨hc, hl, ho⟩ := h
        cases o <;> cases o2 <;> simp_all

/-- Witness for C6: a request carrying `options` is forwarded as a
single POST whose body is its `model_dump`, with the `options` entry
present. -/
theorem scan_forwards_exact_payload_once_witness :
    (scan_code "https://api.example.com/scan" { username := "test_user" }
        { code := "a", language := "python",
          options := some [("check_style", Json.bool true)] }
        (Downstream.transportError "refused")).posts =
        [{ url := "https://api.example.com/scan",
           body := ScanRequest.model_dump
             { code := "a", language := "python",
               options := some [("check_style", Json.bool true)] },
           timeoutSeconds := 30 }] ∧
      (ScanRequest.model_dump
          { code := "a", language := "python",
            options := some [("check_style", Json.bool true)] }).lookup
          "options" = some (Json.obj [("check_style", Json.bool true)]) :=
  ⟨(scan_forwards_exact_payload_once _ _ _ _).1,
    (scan_forwards_exact_payload_once "https://api.example.com/scan"
      { username := "test_user" }
      { code := "a", language := "python",
        options := some [("check_style", Json.bool true)] }
      (Downstream.transportError "refused")).2.1 _ rfl⟩

/-- C7 counterexample: a `/scan` request carrying no credential is
rejected 401, but the detail the repository itself pins down (its test
asserts `"API key required"`) differs from the wording
`"credential required"` that the claim requires exactly. -/
theorem missing_credential_detail_not_as_claimed :
    verify_api_key [("test-api-key", "test_user")] none =
        Except.error (401, "API key required") ∧
      "API key required" ≠ "credential required" :=
  ⟨rfl, by decide⟩

/-- C7 amended: a request with no credential is rejected 401 with
detail exactly `"API key required"`, a request whose credential
resolves to no principal is rejected 401 with detail exactly
`"Invalid API key"`, and the two details are distinct. -/
theorem missing_and_invalid_api_key_rejections
    (keyMap : List (String × String)) (k : String)
    (hk : keyMap.lookup k = none) :
    verify_api_key keyMap none = Except.error (401, "API key required") ∧
      verify_api_key keyMap (some k) =
        Except.error (401, "Invalid API key") ∧
      "API key required" ≠ "Invalid API key" := by
  refine ⟨rfl, ?_, by decide⟩
  simp [verify_api_key, hk]

/-- Witness for C7 amended: with the test key map, a missing header and
an unknown key produce the two distinct 401 rejections. -/
theorem missing_and_invalid_api_key_rejections_witness :
    List.lookup "invalid-key" [("test-api-key", "test_user")] = none ∧
      (verify_api_key [("test-api-key", "test_user")] none =
          Except.error (401, "API key required") ∧
        verify_api_key [("test-api-key", "test_user")] (some "invalid-key") =
          Except.error (401, "Invalid API key") ∧
        "API key required" ≠ "Invalid API key") :=
  ⟨rfl, missing_and_invalid_api_key_rejections _ _ rfl⟩

/-- C8: for every pair of failed `/token` requests — one with an
unknown username, one with a known username but wrong password — both
are rejected 401 with identical response bodies (the same detail, so
the failure does not distinguish the two cases); and every successful
authentication returns 200 with an access-token string and token type
exactly `"bearer"`. -/
theorem token_login_uniform_failure (verify : String → String → Bool)
    (issue : String → String) (db : List (String × UserRec))
    (u1 p1 u2 p2 : String) (rec : UserRec)
    (h1 : db.lookup u1 = none) (h2 : db.lookup u2 = some rec)
    (hp : verify p2 rec.hashed_password = false) :
    login_for_access_token verify issue db u1 p1 =
        TokenOutcome.httpError 401 "用户名或密码错误" ∧
      login_for_access_token verify issue db u2 p2 =
        login_for_access_token verify issue db u1 p1 ∧
      ∀ (u p : String) (urec : UserRec), db.lookup u = some urec →
        verify p urec.hashed_password = true →
        login_for_access_token verify issue db u p =
          TokenOutcome.ok (issue urec.username) "bearer" := by
  refine ⟨?_, ?_, fun u p urec hl hv => ?_⟩
  · simp [login_for_access_token, authenticate_user, h1]
  · simp [login_for_access_token, authenticate_user, h1, h2, hp]
  · simp [login_for_access_token, authenticate_user, hl, hv]

/-- Witness for C8: with a one-user store, the unknown-user rejection
and the wrong-password rejection coincide, and the correct password
yields a bearer token. -/
theorem token_login_uniform_failure_witness :
    List.lookup "nobody" [("test_user", UserRec.mk "test_user" "secret" true)]
        = none ∧
      List.lookup "test_user"
          [("test_user", UserRec.mk "test_user" "secret" true)] =
        some (UserRec.mk "test_user" "secret" true) ∧
      (fun p h => p == h) "wrong"
          (UserRec.mk "test_user" "secret" true).hashed_password = false ∧
      (login_for_access_token (fun p h => p == h) (fun s => s ++ "-token")
          [("test_user", UserRec.mk "test_user" "secret" true)] "nobody" "pw" =
          TokenOutcome.httpError 401 "用户名或密码错误" ∧
        login_for_access_token (fun p h => p == h) (fun s => s ++ "-token")
            [("test_user", UserRec.mk "test_user" "secret" true)]
            "test_user" "wrong" =
          login_for_access_token (fun p h => p == h) (fun s => s ++ "-token")
            [("test_user", UserRec.mk "test_user" "secret" true)]
            "nobody" "pw" ∧
        ∀ (u p : String) (urec : UserRec),
          List.lookup u [("test_user", UserRec.mk "test_user" "secret" true)] =
            some urec →
          (fun p h => p == h) p urec.hashed_password = true →
          login_for_access_token (fun p h => p == h) (fun s => s ++ "-token")
              [("test_user", UserRec.mk "test_user" "secret" true)] u p =
            TokenOutcome.ok (urec.username ++ "-token") "bearer") :=
  ⟨rfl, rfl, rfl, token_login_uniform_failure _ _ _ _ _ _ _ _ rfl rfl rfl⟩

/-- C9: for every `/scan` request body (token variant) whose `code` or
`language` entry is missing or not a string, the request is rejected
with a validation error and the downstream endpoint is never contacted:
the execution performs no POST at all. -/
theorem invalid_scan_body_never_contacts_downstream (url : String)
    (u : User) (fields : List (String × Json)) (d : Downstream)
    (h : isStrField fields "code" = false ∨
         isStrField fields "language" = false) :
    (scan_endpoint url u (Json.obj fields) d).posts = [] ∧
      ∃ e, scan_endpoint url u (Json.obj fields) d =
        EndpointExec.validationError e := by
  obtain ⟨e, he⟩ := validate_obj_error fields h
  refine ⟨?_, e, ?_⟩ <;>
    simp [scan_endpoint, he, EndpointExec.posts]

/-- Witness for C9: a body with a `language` entry but no `code` entry
is rejected by validation and no POST is performed. -/
theorem invalid_scan_body_never_contacts_downstream_witness :
    (isStrField [("language", Json.str "python")] "code" = false ∨
      isStrField [("language", Json.str "python")] "language" = false) ∧
      ((scan_endpoint "https://api.example.com/scan" { username := "test_user" }
          (Json.obj [("language", Json.str "python")])
          (Downstream.response 200 (Except.ok Json.null))).posts = [] ∧
        ∃ e, scan_endpoint "https://api.example.com/scan"
            { username := "test_user" }
            (Json.obj [("language", Json.str "python")])
            (Downstream.response 200 (Except.ok Json.null)) =
          EndpointExec.validationError e) :=
  ⟨Or.inl rfl,
    invalid_scan_body_never_contacts_downstream _ _ _ _ (Or.inl rfl)⟩

/-- C10: the truncation boundary is strict — for every `/scan` request
whose `code` has length at most 100, the log record equals the plain
`model_dump` (no entry modified) and binds `code` to the full,
unmodified value with no truncation marker. -/
theorem scan_log_keeps_short_code_intact (r : ScanRequest)
    (h : r.code.length ≤ 100) :
    build_log_data r = r.model_dump ∧
      (build_log_data r).lookup "code" = some (Json.str r.code) := by
  have hneg : ¬ r.code.length > 100 := by omega
  rw [build_log_data_eq, if_neg hneg]
  exact ⟨rfl, rfl⟩

/-- Witness for C10: a short `code` appears in the log record in full. -/
theorem scan_log_keeps_short_code_intact_witness :
    ("test code" : String).length ≤ 100 ∧
      (build_log_data { code := "test code", language := "python" } =
          ScanRequest.model_dump { code := "test code", language := "python" } ∧
        (build_log_data { code := "test code", language := "python" }).lookup
            "code" = some (Json.str "test code")) :=
  ⟨by decide, scan_log_keeps_short_code_intact _ (by decide)⟩
